import Mathlib

/-!
Verification development for the safety-backend Flask application
(src/safety-backend/app.py).

The application keeps a global in-memory dictionary USER_LAST_DISTRICT
mapping a user id to the last district name stored for that user, exposes
a /location_ping endpoint that resolves coordinates to a district,
detects district changes, scores the new district with a regression
model, interprets the score into one of five alert levels and dispatches
a push notification, and exposes an /end_trip endpoint that clears the
state of one user.

The embedding below is a direct translation of app.py.  External
collaborators (the geopy geocoder, the pandas reference table and the
model pipeline) are modelled as pure oracle functions collected in a
World structure; an Option result models the failure mode of each call
(geocoder returning no district or erroring, reference lookup raising
KeyError, model prediction raising).  The mutable dictionary is modelled
as an association list with Python dictionary semantics (unique keys:
get, set-or-replace, delete).  Every side effect that leaves the process
(geocoder call, reference lookup, model prediction, push dispatch) is
recorded in an explicit call trace so that theorems can speak about
which collaborators a request touched.
-/

/-- Python dictionary with string keys and string values, as used for
USER_LAST_DISTRICT.  Modelled as an association list; the operations
below preserve key uniqueness when starting from a dictionary that has
it, and all theorems hold for arbitrary association lists. -/
abbrev Dict := List (String × String)

/-- dict.get(key): the value stored at the first matching key, if any. -/
def dictGet : Dict → String → Option String
  | [], _ => none
  | (k, v) :: rest, key => if key = k then some v else dictGet rest key

/-- dict[key] = value: replace the first binding of key, or append a new
binding when the key is absent. -/
def dictSet : Dict → String → String → Dict
  | [], key, val => [(key, val)]
  | (k, v) :: rest, key, val =>
      if key = k then (k, val) :: rest else (k, v) :: dictSet rest key val

/-- key in dict. -/
def dictMem (d : Dict) (key : String) : Bool :=
  (dictGet d key).isSome

/-- del dict[key]: remove every binding of key. -/
def dictErase (d : Dict) (key : String) : Dict :=
  d.filter (fun p => p.1 != key)

/-- One entry of the five-level safety alert system, as built by
interpret_score in app.py.  The tagline field of the source interpolates
the score rounded for display through floating-point formatting; that
presentation string is not part of the data modelled here, the remaining
fields are reproduced verbatim. -/
structure AlertLevel where
  level : Nat
  level_name : String
  color_code : String
  emoji : String
  advice : String
deriving DecidableEq

/-- interpret_score (app.py lines 82-96): translate a numerical model
score into the five-level alert system.  The source is an elif chain
over real comparisons; scores are modelled as rationals. -/
def interpret_score (score : ℚ) : AlertLevel :=
  if score ≥ 95 then
    { level := 5, level_name := "All Clear", color_code := "GREEN", emoji := "🟢",
      advice := "Extremely low risk. Feel free to explore and enjoy all activities with confidence." }
  else if 80 ≤ score ∧ score < 95 then
    { level := 4, level_name := "Low Risk", color_code := "BLUE", emoji := "🔵",
      advice := "Low risk profile. Practice standard awareness, like being mindful of belongings in crowded places." }
  else if 60 ≤ score ∧ score < 80 then
    { level := 3, level_name := "Elevated Awareness", color_code := "YELLOW", emoji := "🟡",
      advice := "Be observant. After 9:00 PM, stick to main roads and consider using a trusted taxi service for late travel." }
  else if 40 ≤ score ∧ score < 60 then
    { level := 2, level_name := "High Caution", color_code := "ORANGE", emoji := "🟠",
      advice := "Limit non-essential travel, especially walking alone after sunset. Share your live location with a contact." }
  else
    { level := 1, level_name := "Critical Alert", color_code := "RED", emoji := "🔴",
      advice := "Very high-risk zone. Travel for essential purposes only, using secure transport. Do not travel alone." }

/-- Which of the three module-level collaborators of app.py were
initialized successfully at startup: model_pipeline (joblib model),
district_data (pandas reference table) and geolocator (geopy Nominatim
client).  A false field models the corresponding global being None. -/
structure Config where
  modelLoaded : Bool
  dataLoaded : Bool
  geolocatorLoaded : Bool
deriving DecidableEq

/-- Pure oracles for the external collaborators of one request.
resolve models get_district_from_coords: none covers an absent
geolocator, an unresolved location, a falsy district and any geocoding
exception, all of which make that helper return None.
refData models district_data.loc followed by the crime_rate_per_capita
projection: none models the KeyError raised for a district missing from
the table.  classify models model_pipeline.predict on that single
feature: none models any exception raised by the prediction. -/
structure World where
  resolve : ℚ → ℚ → Option String
  refData : String → Option ℚ
  classify : ℚ → Option ℚ

/-- The JSON body of a /location_ping request: each field is present or
absent, mirroring the four membership tests of the source. -/
structure PingRequest where
  user_id : Option String
  lat : Option ℚ
  lon : Option ℚ
  fcm_token : Option String
deriving DecidableEq

/-- The distinct HTTP responses that app.py can produce for
/location_ping.  serverError is an unhandled exception turned into an
HTTP 500 by Flask; unavailable is the 503 configuration response;
invalidInput is the 400 response; noZone is the 200 response with the
outside-a-recognizable-district message; ok is the bare 200 status
response, produced both when no district change is detected and at the
end of a district transition. -/
inductive Outcome where
  | serverError
  | unavailable
  | invalidInput
  | noZone
  | ok
deriving DecidableEq

/-- One call leaving the process during /location_ping handling. -/
inductive Call where
  | resolveCall (lat lon : ℚ)
  | lookupCall (district : String)
  | classifyCall (featureValue : ℚ)
  | dispatchCall (token : String) (details : AlertLevel)
deriving DecidableEq

/-- Result of one /location_ping request: the HTTP outcome, the state of
USER_LAST_DISTRICT afterwards, and the trace of external calls made. -/
structure PingResult where
  outcome : Outcome
  state : Dict
  calls : List Call
deriving DecidableEq

/-- Python truthiness of the resolved district: get_district_from_coords
may return None, and the source guards with a falsiness test, so both
None and the empty string count as no district. -/
def truthyStr : Option String → Option String
  | none => none
  | some s => if s = "" then none else some s

/-- location_ping, body after the readiness check (app.py lines
142-183): payload validation, district resolution, transition
detection, and on a transition the try block holding reference lookup,
model prediction, score interpretation and push dispatch, followed by
the unconditional state commit.  The KeyError and generic except
handlers of the source only log, so a failed lookup or a failed
prediction falls through to the commit on line 181; dispatch catches
its own exceptions inside send_push_notification and never aborts. -/
def location_ping_body (w : World) (st : Dict) (data : Option PingRequest) : PingResult :=
  match data with
  | none => { outcome := .invalidInput, state := st, calls := [] }
  | some d =>
    match d.user_id, d.lat, d.lon, d.fcm_token with
    | some uid, some lat, some lon, some tok =>
      match truthyStr (w.resolve lat lon) with
      | none => { outcome := .noZone, state := st, calls := [.resolveCall lat lon] }
      | some cur =>
        if some cur = dictGet st uid then
          { outcome := .ok, state := st, calls := [.resolveCall lat lon] }
        else
          match w.refData cur with
          | none =>
            { outcome := .ok, state := dictSet st uid cur,
              calls := [.resolveCall lat lon, .lookupCall cur] }
          | some fv =>
            match w.classify fv with
            | none =>
              { outcome := .ok, state := dictSet st uid cur,
                calls := [.resolveCall lat lon, .lookupCall cur, .classifyCall fv] }
            | some score =>
              { outcome := .ok, state := dictSet st uid cur,
                calls := [.resolveCall lat lon, .lookupCall cur, .classifyCall fv,
                          .dispatchCall tok (interpret_score score)] }
    | _, _, _, _ => { outcome := .invalidInput, state := st, calls := [] }

/-- The two ways the readiness check on app.py line 139 can end.  The
check evaluates all of the list of the three collaborator globals, which
takes the Python truth value of each element in order and stops at the
first falsy one.  A missing model_pipeline is None, hence falsy, and the
check returns 503.  With the model loaded, a missing district_data is
None, again 503.  With both loaded, the truth value of district_data is
taken next, and a pandas DataFrame raises ValueError from its bool
conversion, so the request dies with an unhandled exception (HTTP 500)
before the geolocator element is ever inspected; the check can therefore
never succeed, whatever the geolocator state. -/
inductive CheckResult where
  | unavailable503
  | valueError500
deriving DecidableEq

/-- Outcome of not all of the list of model_pipeline, district_data and
geolocator, with Python truthiness: a loaded model pipeline is truthy
(sklearn Pipeline has a length), None is falsy, and a loaded pandas
DataFrame raises ValueError when converted to bool. -/
def readiness_check (cfg : Config) : CheckResult :=
  if cfg.modelLoaded = false then .unavailable503
  else if cfg.dataLoaded = false then .unavailable503
  else .valueError500

/-- location_ping (app.py lines 133-183), full endpoint: the readiness
check runs first and, as established above, always ends the request
with 503 or 500 before the payload is read; the body translated in
location_ping_body is unreachable in the composed endpoint. -/
def location_ping (cfg : Config) (w : World) (st : Dict) (data : Option PingRequest) :
    PingResult :=
  match readiness_check cfg with
  | .unavailable503 => { outcome := .unavailable, state := st, calls := [] }
  | .valueError500 => { outcome := .serverError, state := st, calls := [] }

/-- The two HTTP responses of /end_trip: the 200 cleared response and
the 404 not-found response. -/
inductive EndTripOutcome where
  | cleared
  | notFound
deriving DecidableEq

/-- end_trip (app.py lines 185-194): data.get of user_id yields the
field when present, then the source tests the truthiness of user_id
conjoined with membership in USER_LAST_DISTRICT; only then is the entry
deleted and 200 returned, otherwise 404 with the state untouched.  An
absent field and an empty string both fail the truthiness test. -/
def end_trip (st : Dict) (user_id : Option String) : EndTripOutcome × Dict :=
  match user_id with
  | none => (.notFound, st)
  | some uid =>
      if uid ≠ "" ∧ dictMem st uid = true then (.cleared, dictErase st uid)
      else (.notFound, st)

/-!
Interleaving model for concurrent pings.

Flask serves requests on concurrent threads and USER_LAST_DISTRICT is a
bare module-level dictionary with no lock: nothing in app.py serializes
the read of USER_LAST_DISTRICT.get on line 154 against the write on
line 181 done by another request of the same user.  Between the two, the
handler performs blocking network work (the reference lookup, the model
prediction and the Firebase dispatch; district resolution even sleeps a
full second), so two pings of one user can both read the old state
before either commits.  Each in-flight transition-handling request is
modelled as a task taking two atomic steps on the shared dictionary:
reading the stored district, then running the transition block and the
commit.  A schedule is the list of task indices in execution order. -/

/-- One in-flight /location_ping request that already resolved its
coordinates to a district (zone) for a user (uid) with a device token. -/
structure PingTask where
  uid : String
  zone : String
  token : String
deriving DecidableEq

/-- Progress of one task: before the state read of line 154, after it
(carrying the value read), or finished. -/
inductive TaskPhase where
  | ready
  | readDone (last : Option String)
  | finished
deriving DecidableEq

/-- Shared system: the USER_LAST_DISTRICT dictionary, the in-flight
tasks with their phases, and how many push dispatch calls were made. -/
structure Sys where
  shared : Dict
  tasks : List (PingTask × TaskPhase)
  dispatchCount : Nat
deriving DecidableEq

/-- One atomic step of one task, mirroring location_ping_body: the read
step records USER_LAST_DISTRICT.get(uid); the second step runs the
transition check against the value previously read, and on a transition
performs the lookup, the prediction, on success the dispatch, and in
every non-error-free case as well the unconditional commit of line 181. -/
def taskStep (w : World) (shared : Dict) (disp : Nat) (t : PingTask) (ph : TaskPhase) :
    Dict × Nat × TaskPhase :=
  match ph with
  | .ready => (shared, disp, .readDone (dictGet shared t.uid))
  | .readDone last =>
      if some t.zone = last then (shared, disp, .finished)
      else
        match w.refData t.zone with
        | none => (dictSet shared t.uid t.zone, disp, .finished)
        | some fv =>
            match w.classify fv with
            | none => (dictSet shared t.uid t.zone, disp, .finished)
            | some _ => (dictSet shared t.uid t.zone, disp + 1, .finished)
  | .finished => (shared, disp, .finished)

/-- Run one step of the task at index i (out-of-range indices are
no-ops). -/
def sysStep (w : World) (sys : Sys) (i : Nat) : Sys :=
  match sys.tasks.get? i with
  | none => sys
  | some (t, ph) =>
      let r := taskStep w sys.shared sys.dispatchCount t ph
      { shared := r.1, tasks := sys.tasks.set i (t, r.2.2), dispatchCount := r.2.1 }

/-- Run a whole schedule. -/
def runSched (w : World) (sys : Sys) : List Nat → Sys
  | [] => sys
  | i :: rest => runSched w (sysStep w sys i) rest

/-- A fully functioning world used for concrete scenarios: every
coordinate resolves to district A, district A has reference data with
feature value 1, and the model scores that feature 85. -/
def wGood : World :=
  { resolve := fun _ _ => some "A"
    refData := fun z => if z = "A" then some 1 else none
    classify := fun _ => some 85 }

/-- Two concurrent pings of user u1, both resolved to district A, over
an empty initial state. -/
def raceSys : Sys :=
  { shared := []
    tasks := [({ uid := "u1", zone := "A", token := "tokOne" }, .ready),
              ({ uid := "u1", zone := "A", token := "tokTwo" }, .ready)]
    dispatchCount := 0 }

/-- A well-formed /location_ping payload with all four required fields. -/
def mkPing (uid : String) (lat lon : ℚ) (tok : String) : Option PingRequest :=
  some { user_id := some uid, lat := some lat, lon := some lon, fcm_token := some tok }

/-- The concrete payload used by the concrete scenarios below. -/
def reqU1 : Option PingRequest := mkPing "u1" 1 2 "tokOne"

/-- A payload whose user_id field is missing. -/
def reqNoUser : Option PingRequest :=
  some { user_id := none, lat := some 1, lon := some 2, fcm_token := some "tokOne" }

/-- A world whose geocoder resolves every coordinate to district A but
whose reference table holds no district at all, so every lookup raises
KeyError. -/
def wNoRef : World :=
  { resolve := fun _ _ => some "A"
    refData := fun _ => none
    classify := fun _ => some 85 }

/-- A world whose geocoder resolves every coordinate to district A and
whose reference table knows district A, but whose model prediction
raises on every input. -/
def wBadModel : World :=
  { resolve := fun _ _ => some "A"
    refData := fun z => if z = "A" then some 1 else none
    classify := fun _ => none }

/-- dictGet after dictSet at the same key. -/
theorem dictGet_dictSet_self (d : Dict) (k v : String) :
    dictGet (dictSet d k v) k = some v := by
  induction d with
  | nil => simp [dictSet, dictGet]
  | cons p rest ih =>
      obtain ⟨k2, v2⟩ := p
      by_cases h : k = k2
      · simp [dictSet, dictGet, h]
      · simp [dictSet, dictGet, h, ih]

/-- dictGet after dictErase at the erased key. -/
theorem dictGet_dictErase_self (d : Dict) (k : String) :
    dictGet (dictErase d k) k = none := by
  induction d with
  | nil => rfl
  | cons p rest ih =>
      obtain ⟨k2, v2⟩ := p
      simp only [dictErase, List.filter_cons] at ih ⊢
      by_cases h : k2 = k
      · subst h
        simpa using ih
      · have hne : k ≠ k2 := fun hk => h hk.symm
        simpa [h, dictGet, hne] using ih

/-- A false dictMem means dictGet finds nothing. -/
theorem dictGet_eq_none_of_dictMem_false (d : Dict) (k : String)
    (h : dictMem d k = false) : dictGet d k = none := by
  unfold dictMem at h
  cases hg : dictGet d k with
  | none => rfl
  | some v => rw [hg] at h; simp at h

/-- C3: interpret_score is a pure total function with half-open
boundaries: level 5 iff the score is at least 95, level 4 iff it lies in
[80, 95), level 3 iff in [60, 80), level 2 iff in [40, 60), level 1 iff
below 40; the listed boundary inputs evaluate as the specification
states and every input yields exactly one of the five levels. -/
theorem C3_interpret_score_boundaries (s : ℚ) :
    (((interpret_score s).level = 5 ↔ 95 ≤ s) ∧
     ((interpret_score s).level = 4 ↔ 80 ≤ s ∧ s < 95) ∧
     ((interpret_score s).level = 3 ↔ 60 ≤ s ∧ s < 80) ∧
     ((interpret_score s).level = 2 ↔ 40 ≤ s ∧ s < 60) ∧
     ((interpret_score s).level = 1 ↔ s < 40)) ∧
    ((interpret_score s).level = 1 ∨ (interpret_score s).level = 2 ∨
      (interpret_score s).level = 3 ∨ (interpret_score s).level = 4 ∨
      (interpret_score s).level = 5) ∧
    (interpret_score (95 : ℚ)).level = 5 ∧
    (interpret_score (94.999 : ℚ)).level = 4 ∧
    (interpret_score (80 : ℚ)).level = 4 ∧
    (interpret_score (59.9999 : ℚ)).level = 2 ∧
    (interpret_score (40 : ℚ)).level = 2 ∧
    (interpret_score (39.9 : ℚ)).level = 1 := by
  refine ⟨?_, ?_,
    by norm_num [interpret_score], by norm_num [interpret_score],
    by norm_num [interpret_score], by norm_num [interpret_score],
    by norm_num [interpret_score], by norm_num [interpret_score]⟩
  · unfold interpret_score
    split_ifs with h1 h2 h3 h4
    · refine ⟨?_, ?_, ?_, ?_, ?_⟩ <;> simp <;> first | linarith | (intro h; linarith)
    · obtain ⟨ha, hb⟩ := h2
      refine ⟨?_, ?_, ?_, ?_, ?_⟩ <;> simp <;>
        first | linarith | (intro h; linarith) | (constructor <;> linarith)
    · obtain ⟨ha, hb⟩ := h3
      refine ⟨?_, ?_, ?_, ?_, ?_⟩ <;> simp <;>
        first | linarith | (intro h; linarith) | (constructor <;> linarith)
    · obtain ⟨ha, hb⟩ := h4
      refine ⟨?_, ?_, ?_, ?_, ?_⟩ <;> simp <;>
        first | linarith | (intro h; linarith) | (constructor <;> linarith)
    · have hb1 : s < 95 := lt_of_not_ge h1
      have hb2 : s < 80 := by
        by_contra hc
        push_neg at hc
        exact h2 ⟨hc, hb1⟩
      have hb3 : s < 60 := by
        by_contra hc
        push_neg at hc
        exact h3 ⟨hc, hb2⟩
      have hb4 : s < 40 := by
        by_contra hc
        push_neg at hc
        exact h4 ⟨hc, hb3⟩
      refine ⟨?_, ?_, ?_, ?_, ?_⟩ <;> simp <;> first | linarith | (intro h; linarith)
  · unfold interpret_score
    split_ifs <;> simp

/-- C1 counterexample: with district A resolved, absent from the
reference table, and no prior state for u1, the claim says the stored
state after the ping equals the stored state before it; the code
commits u1 to district A anyway, because the commit on app.py line 181
sits outside the try block whose KeyError handler only logs. -/
theorem C1_counterexample :
    (location_ping_body wNoRef [] reqU1).state = [("u1", "A")] ∧
    (location_ping_body wNoRef [] reqU1).state ≠ [] ∧
    wNoRef.refData "A" = none := by
  refine ⟨rfl, by decide, rfl⟩

/-- C1 amended: when the resolved district differs from the stored one
and the reference lookup fails, no prediction and no dispatch happen,
but last_zone IS committed to the resolved district; consequently a
later ping to the same district is a no-change ping that does not
re-attempt the lookup. -/
theorem C1_amended_lookup_failure_still_commits
    (w : World) (st : Dict) (uid tok z : String) (lat lon : ℚ)
    (hres : truthyStr (w.resolve lat lon) = some z)
    (hlast : dictGet st uid ≠ some z)
    (href : w.refData z = none) :
    location_ping_body w st (mkPing uid lat lon tok) =
      { outcome := .ok, state := dictSet st uid z,
        calls := [.resolveCall lat lon, .lookupCall z] } ∧
    location_ping_body w (dictSet st uid z) (mkPing uid lat lon tok) =
      { outcome := .ok, state := dictSet st uid z,
        calls := [.resolveCall lat lon] } := by
  have hne : ¬ (some z = dictGet st uid) := fun h => hlast h.symm
  constructor
  · simp [location_ping_body, mkPing, hres, hne, href]
  · simp [location_ping_body, mkPing, hres, dictGet_dictSet_self]

/-- Witness for the amended C1 at a concrete input. -/
theorem C1_amended_witness :
    truthyStr (wNoRef.resolve 1 2) = some "A" ∧
    dictGet [] "u1" ≠ some "A" ∧
    wNoRef.refData "A" = none ∧
    (location_ping_body wNoRef [] (mkPing "u1" 1 2 "tokOne") =
      { outcome := .ok, state := dictSet [] "u1" "A",
        calls := [.resolveCall 1 2, .lookupCall "A"] } ∧
     location_ping_body wNoRef (dictSet [] "u1" "A") (mkPing "u1" 1 2 "tokOne") =
      { outcome := .ok, state := dictSet [] "u1" "A",
        calls := [.resolveCall 1 2] }) :=
  ⟨by decide, by decide, rfl,
    C1_amended_lookup_failure_still_commits wNoRef [] "u1" "tokOne" "A" 1 2
      (by decide) (by decide) rfl⟩

/-- C2 counterexample: with district A resolved, reference data present
but the model prediction raising, the claim says last_zone is left
unchanged; the code commits u1 to district A anyway, because the commit
on app.py line 181 sits outside the try block whose generic exception
handler only logs. -/
theorem C2_counterexample :
    (location_ping_body wBadModel [] reqU1).state = [("u1", "A")] ∧
    (location_ping_body wBadModel [] reqU1).state ≠ [] ∧
    (location_ping_body wBadModel [] reqU1).calls =
      [.resolveCall 1 2, .lookupCall "A", .classifyCall 1] := by
  refine ⟨rfl, by decide, rfl⟩

/-- C2 amended: when the resolved district differs from the stored one
and the classifier call fails after a successful reference lookup, no
dispatch happens, but last_zone IS committed to the resolved district;
consequently the transition is not re-attempted on the next ping, which
is a no-change ping. -/
theorem C2_amended_classifier_failure_still_commits
    (w : World) (st : Dict) (uid tok z : String) (lat lon fv : ℚ)
    (hres : truthyStr (w.resolve lat lon) = some z)
    (hlast : dictGet st uid ≠ some z)
    (href : w.refData z = some fv)
    (hcl : w.classify fv = none) :
    location_ping_body w st (mkPing uid lat lon tok) =
      { outcome := .ok, state := dictSet st uid z,
        calls := [.resolveCall lat lon, .lookupCall z, .classifyCall fv] } ∧
    location_ping_body w (dictSet st uid z) (mkPing uid lat lon tok) =
      { outcome := .ok, state := dictSet st uid z,
        calls := [.resolveCall lat lon] } := by
  have hne : ¬ (some z = dictGet st uid) := fun h => hlast h.symm
  constructor
  · simp [location_ping_body, mkPing, hres, hne, href, hcl]
  · simp [location_ping_body, mkPing, hres, dictGet_dictSet_self]

/-- Witness for the amended C2 at a concrete input. -/
theorem C2_amended_witness :
    truthyStr (wBadModel.resolve 1 2) = some "A" ∧
    dictGet [] "u1" ≠ some "A" ∧
    wBadModel.refData "A" = some 1 ∧
    wBadModel.classify 1 = none ∧
    (location_ping_body wBadModel [] (mkPing "u1" 1 2 "tokOne") =
      { outcome := .ok, state := dictSet [] "u1" "A",
        calls := [.resolveCall 1 2, .lookupCall "A", .classifyCall 1] } ∧
     location_ping_body wBadModel (dictSet [] "u1" "A") (mkPing "u1" 1 2 "tokOne") =
      { outcome := .ok, state := dictSet [] "u1" "A",
        calls := [.resolveCall 1 2] }) :=
  ⟨by decide, by decide, by decide, rfl,
    C2_amended_classifier_failure_still_commits wBadModel [] "u1" "tokOne" "A" 1 2 1
      (by decide) (by decide) (by decide) rfl⟩

/-- C4 counterexample: a completed transition cycle (dispatch present in
the call trace) and a no-change ping (resolver call only) produce the
same HTTP outcome, the bare ok response of app.py line 183; the caller
cannot distinguish them and no alert level is carried in the response. -/
theorem C4_counterexample :
    (location_ping_body wGood [] reqU1).outcome =
      (location_ping_body wGood [("u1", "A")] reqU1).outcome ∧
    Call.dispatchCall "tokOne" (interpret_score 85) ∈
      (location_ping_body wGood [] reqU1).calls ∧
    (location_ping_body wGood [("u1", "A")] reqU1).calls = [.resolveCall 1 2] := by
  refine ⟨rfl, by decide, rfl⟩

/-- C4 amended: a ping that detects a transition and completes the
classify-interpret-dispatch cycle returns the generic ok outcome, the
same outcome a no-change ping returns; the computed alert level is
carried only in the dispatched push notification, never in the HTTP
response. -/
theorem C4_amended_alerted_outcome_not_distinct
    (w : World) (st : Dict) (uid tok z : String) (lat lon fv sc : ℚ)
    (hres : truthyStr (w.resolve lat lon) = some z)
    (hlast : dictGet st uid ≠ some z)
    (href : w.refData z = some fv)
    (hcl : w.classify fv = some sc) :
    location_ping_body w st (mkPing uid lat lon tok) =
      { outcome := .ok, state := dictSet st uid z,
        calls := [.resolveCall lat lon, .lookupCall z, .classifyCall fv,
                  .dispatchCall tok (interpret_score sc)] } ∧
    (location_ping_body w (dictSet st uid z) (mkPing uid lat lon tok)).outcome =
      (location_ping_body w st (mkPing uid lat lon tok)).outcome := by
  have hne : ¬ (some z = dictGet st uid) := fun h => hlast h.symm
  have h1 : location_ping_body w st (mkPing uid lat lon tok) =
      { outcome := .ok, state := dictSet st uid z,
        calls := [.resolveCall lat lon, .lookupCall z, .classifyCall fv,
                  .dispatchCall tok (interpret_score sc)] } := by
    simp [location_ping_body, mkPing, hres, hne, href, hcl]
  have h2 : location_ping_body w (dictSet st uid z) (mkPing uid lat lon tok) =
      { outcome := .ok, state := dictSet st uid z,
        calls := [.resolveCall lat lon] } := by
    simp [location_ping_body, mkPing, hres, dictGet_dictSet_self]
  exact ⟨h1, by rw [h1, h2]⟩

/-- Witness for the amended C4 at a concrete input. -/
theorem C4_amended_witness :
    truthyStr (wGood.resolve 1 2) = some "A" ∧
    dictGet [] "u1" ≠ some "A" ∧
    wGood.refData "A" = some 1 ∧
    wGood.classify 1 = some 85 ∧
    (location_ping_body wGood [] (mkPing "u1" 1 2 "tokOne") =
      { outcome := .ok, state := dictSet [] "u1" "A",
        calls := [.resolveCall 1 2, .lookupCall "A", .classifyCall 1,
                  .dispatchCall "tokOne" (interpret_score 85)] } ∧
     (location_ping_body wGood (dictSet [] "u1" "A") (mkPing "u1" 1 2 "tokOne")).outcome =
      (location_ping_body wGood [] (mkPing "u1" 1 2 "tokOne")).outcome) :=
  ⟨by decide, by decide, by decide, by decide,
    C4_amended_alerted_outcome_not_distinct wGood [] "u1" "tokOne" "A" 1 2 1 85
      (by decide) (by decide) (by decide) (by decide)⟩

/-- C7: a ping whose resolved district equals the stored one returns
the ok outcome, leaves the state untouched, and calls only the
resolver: no reference lookup, no classifier, no dispatch; repeating
the ping gives the identical result. -/
theorem C7_no_change_idempotent
    (w : World) (st : Dict) (uid tok z : String) (lat lon : ℚ)
    (hres : truthyStr (w.resolve lat lon) = some z)
    (hlast : dictGet st uid = some z) :
    location_ping_body w st (mkPing uid lat lon tok) =
      { outcome := .ok, state := st, calls := [.resolveCall lat lon] } ∧
    location_ping_body w (location_ping_body w st (mkPing uid lat lon tok)).state
        (mkPing uid lat lon tok) =
      location_ping_body w st (mkPing uid lat lon tok) := by
  have h1 : location_ping_body w st (mkPing uid lat lon tok) =
      { outcome := .ok, state := st, calls := [.resolveCall lat lon] } := by
    simp [location_ping_body, mkPing, hres, hlast]
  refine ⟨h1, ?_⟩
  rw [h1]
  exact h1

/-- Witness for C7 at a concrete input. -/
theorem C7_witness :
    truthyStr (wGood.resolve 1 2) = some "A" ∧
    dictGet [("u1", "A")] "u1" = some "A" ∧
    (location_ping_body wGood [("u1", "A")] (mkPing "u1" 1 2 "tokOne") =
      { outcome := .ok, state := [("u1", "A")], calls := [.resolveCall 1 2] } ∧
     location_ping_body wGood
        (location_ping_body wGood [("u1", "A")] (mkPing "u1" 1 2 "tokOne")).state
        (mkPing "u1" 1 2 "tokOne") =
      location_ping_body wGood [("u1", "A")] (mkPing "u1" 1 2 "tokOne")) :=
  ⟨by decide, by decide,
    C7_no_change_idempotent wGood [("u1", "A")] "u1" "tokOne" "A" 1 2
      (by decide) (by decide)⟩

/-- C9: a payload that is absent or misses any of user_id, lat, lon or
fcm_token makes the validated endpoint body return the invalid-input
response with the state untouched and no external call at all. -/
theorem C9_invalid_input_no_effects
    (w : World) (st : Dict) (d : Option PingRequest)
    (h : d = none ∨ ∃ r, d = some r ∧
      (r.user_id = none ∨ r.lat = none ∨ r.lon = none ∨ r.fcm_token = none)) :
    location_ping_body w st d =
      { outcome := .invalidInput, state := st, calls := [] } := by
  rcases h with h | ⟨r, rfl, hr⟩
  · subst h; rfl
  · obtain ⟨u, la, lo, t⟩ := r
    cases u <;> cases la <;> cases lo <;> cases t <;>
      first
        | rfl
        | (rcases hr with h | h | h | h <;> simp_all)

/-- Witness for C9 at a concrete input. -/
theorem C9_witness :
    (reqNoUser = none ∨
      ∃ r, reqNoUser = some r ∧
        (r.user_id = none ∨ r.lat = none ∨ r.lon = none ∨ r.fcm_token = none)) ∧
    location_ping_body wGood [("u1", "A")] reqNoUser =
      { outcome := .invalidInput, state := [("u1", "A")], calls := [] } :=
  ⟨Or.inr ⟨_, rfl, Or.inl rfl⟩,
    C9_invalid_input_no_effects wGood [("u1", "A")] reqNoUser
      (Or.inr ⟨_, rfl, Or.inl rfl⟩)⟩

/-- C10: an end-trip request without a user_id field, or with the empty
string as user_id, returns the not-found response and leaves the state
untouched, exactly like a user with no active trip. -/
theorem C10_end_trip_missing_or_empty_user (st : Dict) :
    end_trip st none = (.notFound, st) ∧
    end_trip st (some "") = (.notFound, st) := by
  constructor
  · rfl
  · simp [end_trip]

/-- C6: the readiness check of app.py line 139 evaluates the Python
truth value of the pandas reference table inside all of the collaborator
list, which raises ValueError whenever the table is loaded; a ping with
only the geolocator missing therefore dies with an unhandled exception
(HTTP 500) instead of the 503 unavailable response, and so does a ping
with every collaborator loaded.  What does hold for every combination:
the endpoint touches no per-user state and makes no external call,
because it never gets past the check. -/
theorem C6_readiness_check_defect :
    (location_ping { modelLoaded := true, dataLoaded := true, geolocatorLoaded := false }
        wGood [] reqU1).outcome = .serverError ∧
    (location_ping { modelLoaded := true, dataLoaded := true, geolocatorLoaded := false }
        wGood [] reqU1).outcome ≠ .unavailable ∧
    (location_ping { modelLoaded := true, dataLoaded := true, geolocatorLoaded := true }
        wGood [] reqU1).outcome = .serverError ∧
    (∀ (cfg : Config) (w : World) (st : Dict) (d : Option PingRequest),
        (location_ping cfg w st d).state = st ∧
        (location_ping cfg w st d).calls = [] ∧
        ((location_ping cfg w st d).outcome = .unavailable ∨
          (location_ping cfg w st d).outcome = .serverError)) := by
  refine ⟨rfl, by decide, rfl, ?_⟩
  intro cfg w st d
  obtain ⟨m, dt, g⟩ := cfg
  cases m <;> cases dt <;> simp [location_ping, readiness_check]

/-- C5 counterexample: two concurrent pings for user u1, both resolved
to district A over an empty state, scheduled so that both read
USER_LAST_DISTRICT before either commits (an interleaving nothing in
app.py prevents, since the dictionary has no lock and blocking network
work separates the read from the commit), produce two dispatch calls,
not the exactly one the claim states. -/
theorem C5_counterexample :
    (runSched wGood raceSys [0, 1, 0, 1]).dispatchCount = 2 ∧
    (runSched wGood raceSys [0, 1, 0, 1]).dispatchCount ≠ 1 := by decide

/-- C5 amended: the engine performs no per-user serialization of the
read-check-commit sequence; for any two concurrent pings of the same
user resolving to the same new recognized district, the interleaved
schedule produces two dispatch calls, while exactly one dispatch occurs
only when the pings do not interleave (one completes before the other
reads). -/
theorem C5_amended_no_per_user_serialization
    (w : World) (shared0 : Dict) (uid z tok1 tok2 : String) (fv sc : ℚ)
    (hlast : dictGet shared0 uid ≠ some z)
    (href : w.refData z = some fv)
    (hcl : w.classify fv = some sc) :
    (runSched w
      { shared := shared0,
        tasks := [({ uid := uid, zone := z, token := tok1 }, .ready),
                  ({ uid := uid, zone := z, token := tok2 }, .ready)],
        dispatchCount := 0 } [0, 1, 0, 1]).dispatchCount = 2 ∧
    (runSched w
      { shared := shared0,
        tasks := [({ uid := uid, zone := z, token := tok1 }, .ready),
                  ({ uid := uid, zone := z, token := tok2 }, .ready)],
        dispatchCount := 0 } [0, 0, 1, 1]).dispatchCount = 1 := by
  have hne : ¬ (some z = dictGet shared0 uid) := fun h => hlast h.symm
  constructor
  · simp [runSched, sysStep, taskStep, List.get?, List.set, hne, href, hcl]
  · simp [runSched, sysStep, taskStep, List.get?, List.set, hne, href, hcl,
      dictGet_dictSet_self]

/-- Witness for the amended C5 at a concrete input. -/
theorem C5_amended_witness :
    dictGet [] "u1" ≠ some "A" ∧
    wGood.refData "A" = some 1 ∧
    wGood.classify 1 = some 85 ∧
    ((runSched wGood raceSys [0, 1, 0, 1]).dispatchCount = 2 ∧
     (runSched wGood raceSys [0, 0, 1, 1]).dispatchCount = 1) :=
  ⟨by decide, by decide, by decide,
    C5_amended_no_per_user_serialization wGood [] "u1" "A" "tokOne" "tokTwo" 1 85
      (by decide) (by decide) (by decide)⟩

/-- Shared helper: an end-trip request for a user with no stored entry
answers not-found and leaves the state untouched. -/
theorem end_trip_notFound_of_get_none (st : Dict) (uid : String)
    (h : dictGet st uid = none) : end_trip st (some uid) = (.notFound, st) := by
  simp only [end_trip, dictMem, h]
  simp

/-- C8 counterexample: with the empty string as user id and a stored
entry for that very key, the claim says end-trip clears the state and
answers ok-cleared; the code answers not-found and leaves the entry in
place, because the truthiness guard rejects the empty string before the
membership test. -/
theorem C8_counterexample :
    dictMem [("", "A")] "" = true ∧
    end_trip [("", "A")] (some "") = (.notFound, [("", "A")]) := by decide

/-- C8 amended: for every NON-EMPTY user id, end-trip answers cleared
exactly when state existed, removes all stored state for the user, is
safe to repeat (the second call answers not-found), and afterwards a
ping resolving to any recognized district, including the one stored
before end-trip, runs a full alert cycle with a dispatch call. -/
theorem C8_amended_end_trip_clears_state
    (w : World) (st : Dict) (uid z tok : String) (lat lon fv sc : ℚ)
    (hu : uid ≠ "")
    (hres : truthyStr (w.resolve lat lon) = some z)
    (href : w.refData z = some fv)
    (hcl : w.classify fv = some sc) :
    ((end_trip st (some uid)).1 = .cleared ↔ dictMem st uid = true) ∧
    dictGet (end_trip st (some uid)).2 uid = none ∧
    end_trip (end_trip st (some uid)).2 (some uid) =
      (.notFound, (end_trip st (some uid)).2) ∧
    location_ping_body w (end_trip st (some uid)).2 (mkPing uid lat lon tok) =
      { outcome := .ok, state := dictSet (end_trip st (some uid)).2 uid z,
        calls := [.resolveCall lat lon, .lookupCall z, .classifyCall fv,
                  .dispatchCall tok (interpret_score sc)] } := by
  have hget : dictGet (end_trip st (some uid)).2 uid = none := by
    by_cases hmem : dictMem st uid = true
    · have he : end_trip st (some uid) = (.cleared, dictErase st uid) := by
        simp only [end_trip]
        rw [if_pos ⟨hu, hmem⟩]
      rw [he]
      exact dictGet_dictErase_self st uid
    · have hmf : dictMem st uid = false := by simpa using hmem
      have he : end_trip st (some uid) = (.notFound, st) := by
        simp only [end_trip]
        rw [if_neg (fun hc => hmem hc.2)]
      rw [he]
      exact dictGet_eq_none_of_dictMem_false st uid hmf
  have hcleared : (end_trip st (some uid)).1 = .cleared ↔ dictMem st uid = true := by
    by_cases hmem : dictMem st uid = true
    · have he : end_trip st (some uid) = (.cleared, dictErase st uid) := by
        simp only [end_trip]
        rw [if_pos ⟨hu, hmem⟩]
      rw [he]
      simpa using hmem
    · have he : end_trip st (some uid) = (.notFound, st) := by
        simp only [end_trip]
        rw [if_neg (fun hc => hmem hc.2)]
      rw [he]
      simp [hmem]
  have hsecond : end_trip (end_trip st (some uid)).2 (some uid) =
      (.notFound, (end_trip st (some uid)).2) :=
    end_trip_notFound_of_get_none (end_trip st (some uid)).2 uid hget
  have hne : ¬ (some z = dictGet (end_trip st (some uid)).2 uid) := by
    rw [hget]
    simp
  refine ⟨hcleared, hget, hsecond, ?_⟩
  simp [location_ping_body, mkPing, hres, hne, href, hcl]

/-- Witness for the amended C8 at a concrete input. -/
theorem C8_amended_witness :
    "u1" ≠ "" ∧
    truthyStr (wGood.resolve 1 2) = some "A" ∧
    wGood.refData "A" = some 1 ∧
    wGood.classify 1 = some 85 ∧
    (((end_trip [("u1", "A")] (some "u1")).1 = .cleared ↔
        dictMem [("u1", "A")] "u1" = true) ∧
     dictGet (end_trip [("u1", "A")] (some "u1")).2 "u1" = none ∧
     end_trip (end_trip [("u1", "A")] (some "u1")).2 (some "u1") =
       (.notFound, (end_trip [("u1", "A")] (some "u1")).2) ∧
     location_ping_body wGood (end_trip [("u1", "A")] (some "u1")).2
         (mkPing "u1" 1 2 "tokOne") =
       { outcome := .ok,
         state := dictSet (end_trip [("u1", "A")] (some "u1")).2 "u1" "A",
         calls := [.resolveCall 1 2, .lookupCall "A", .classifyCall 1,
                   .dispatchCall "tokOne" (interpret_score 85)] }) :=
  ⟨by decide, by decide, by decide, by decide,
    C8_amended_end_trip_clears_state wGood [("u1", "A")] "u1" "A" "tokOne" 1 2 1 85
      (by decide) (by decide) (by decide) (by decide)⟩
